import Mathlib

/-!
Shallow embedding of the job-orchestration core of `backend/main.py` and of
the ASR-fallback step of `fill_gaps.py` from the insta-captions repository,
together with theorems about the orchestration behaviour.

Conventions of the embedding:
* the in-memory job registry (the Python dict `jobs`) is a total map
  `String → Option Job`;
* timestamps (`datetime.now().isoformat()`) are abstract `Nat` clock values;
* `progress` is a rational number; the Python literals `0.1`, `0.3`, ... are
  the corresponding exact rationals (the code only ever assigns literals and
  compares nothing, so this is faithful);
* the filesystem seen by the HTTP handlers (`os.path.exists`, `shutil.rmtree`,
  zip creation) is a predicate `String → Bool` on paths;
* the outcome of the external pipeline stages (workspace creation by
  `tempfile.mkdtemp`, `run_scrape_subs`, `run_fill_gaps`, the final directory
  listing of `workspace/subs`) is an environment record `PipelineEnv`:
  an `Except` value `.error e` means the corresponding Python call raised an
  exception whose `str` is `e`;
* every single registry mutation (`jobs[job_id][...] = ...`) of the executor
  is recorded, in program order, in a trace of registry snapshots, so that
  ordering claims about checkpoints can be stated.
-/

/-- One registry record, mirroring the dict created in `submit_urls`
(`backend/main.py`): keys `job_id`, `state`, `progress`, `message`, `urls`,
`created_at`, `completed_at`, `workspace`. -/
structure Job where
  job_id : String
  state : String
  progress : Rat
  message : String
  urls : List String
  created_at : Nat
  completed_at : Option Nat
  workspace : Option String
deriving Repr, DecidableEq

/-- The registry `jobs : Dict[str, Dict]` of `backend/main.py`. -/
abbrev Jobs := String → Option Job

/-- The record inserted by `submit_urls`:
`{"job_id": job_id, "state": "pending", "progress": 0.0, "message": "Job created",
"urls": submission.urls, "created_at": now, "completed_at": None, "workspace": None}`. -/
def submittedJob (job_id : String) (urls : List String) (now : Nat) : Job :=
  { job_id := job_id
    state := "pending"
    progress := 0
    message := "Job created"
    urls := urls
    created_at := now
    completed_at := none
    workspace := none }

/-- `POST /submit` (`submit_urls` in `backend/main.py`): rejects an empty URL
list with HTTP 400 before touching the registry, otherwise stores the new
record under a fresh id and schedules the background task.  Returns the
registry after the call together with the HTTP outcome
(error `(status, detail)` or success `(job_id, message)`). -/
def submit_urls (jobs : Jobs) (urls : List String) (job_id : String) (now : Nat) :
    Jobs × Except (Nat × String) (String × String) :=
  if urls = [] then
    (jobs, Except.error (400, "No URLs provided"))
  else
    (fun k => if k = job_id then some (submittedJob job_id urls now) else jobs k,
     Except.ok (job_id, "Job submitted successfully"))

/-- `GET /status/{job_id}` response model (`JobStatus` in `backend/main.py`). -/
structure JobStatusResponse where
  job_id : String
  state : String
  progress : Rat
  message : String
  created_at : Nat
  completed_at : Option Nat
deriving Repr, DecidableEq

/-- `GET /status/{job_id}` (`get_job_status` in `backend/main.py`): 404 for an
unknown id, otherwise the projection of the registry record. -/
def get_job_status (jobs : Jobs) (job_id : String) :
    Except (Nat × String) JobStatusResponse :=
  match jobs job_id with
  | none => Except.error (404, "Job not found")
  | some job =>
      Except.ok
        { job_id := job.job_id
          state := job.state
          progress := job.progress
          message := job.message
          created_at := job.created_at
          completed_at := job.completed_at }

/-- Python `s.endswith(t)`, computed on the underlying character lists (the
byte-position-based `String` primitives do not reduce in the kernel). -/
def strEndsWith (s t : String) : Bool := t.data.isSuffixOf s.data

/-- Python `s.startswith(t)`, computed on the underlying character lists. -/
def strStartsWith (s t : String) : Bool := t.data.isPrefixOf s.data

/-- `shutil.rmtree(ws)`: afterwards, `ws` itself and every path strictly
below it are gone; every other path is untouched. -/
def rmtree (ws : String) (pathExists : String → Bool) : String → Bool :=
  fun p => if p = ws || strStartsWith p (ws ++ "/") then false else pathExists p

/-- `DELETE /jobs/{job_id}` (`delete_job` in `backend/main.py`): 404 for an
unknown id; otherwise `shutil.rmtree` the workspace when the field is set
(truthy) and the path exists, then drop the registry entry.  Returns the
registry and the filesystem after the call together with the HTTP outcome. -/
def delete_job (jobs : Jobs) (pathExists : String → Bool) (job_id : String) :
    Jobs × (String → Bool) × Except (Nat × String) String :=
  match jobs job_id with
  | none => (jobs, pathExists, Except.error (404, "Job not found"))
  | some job =>
      let pathExists' :=
        match job.workspace with
        | some ws => if ws ≠ "" && pathExists ws then rmtree ws pathExists else pathExists
        | none => pathExists
      (fun k => if k = job_id then none else jobs k,
       pathExists',
       Except.ok "Job deleted successfully")

/-- `GET /result/{job_id}` (`download_result` in `backend/main.py`): 404 for an
unknown id; 400 when the job is not `completed`; 404 when the `workspace` field
is unset (falsy) or the directory is missing; otherwise `create_zip_file`
writes `{workspace}/transcripts.zip` and the file is streamed under the
download name `transcripts_{job_id}.zip`.  Returns the filesystem after the
call and the HTTP outcome (success is `(served path, download filename)`). -/
def download_result (jobs : Jobs) (pathExists : String → Bool) (job_id : String) :
    (String → Bool) × Except (Nat × String) (String × String) :=
  match jobs job_id with
  | none => (pathExists, Except.error (404, "Job not found"))
  | some job =>
      if job.state ≠ "completed" then
        (pathExists, Except.error (400, "Job not completed yet"))
      else
        match job.workspace with
        | none => (pathExists, Except.error (404, "Results not found"))
        | some ws =>
            if ws = "" || !pathExists ws then
              (pathExists, Except.error (404, "Results not found"))
            else
              let zip_path := ws ++ "/transcripts.zip"
              let pathExists' := fun p => p == zip_path || pathExists p
              if !pathExists' zip_path then
                (pathExists', Except.error (404, "ZIP file not found"))
              else
                (pathExists', Except.ok (zip_path, "transcripts_" ++ job_id ++ ".zip"))

/-- Python `url.split()` on one submitted entry: split on runs of
whitespace, empty tokens discarded. -/
def tokenizeWhitespace (s : String) : List String :=
  ((List.splitOnP Char.isWhitespace s.data).filter (fun t => t ≠ [])).map String.mk

/-- The lines written to `{workspace}/reels.txt` by `process_urls`:
`for url in urls: for u in url.split(): if u.strip(): f.write(u.strip())`. -/
def reelsLines (urls : List String) : List String :=
  (urls.map tokenizeWhitespace).flatten

/-- Outcome of the external world during one run of `process_urls`:
`mkdtemp` is the workspace creation (`.ok path` or an exception),
`scrape` the outcome of `run_scrape_subs`, `fillGaps` the outcome of
`run_fill_gaps`, `subsFiles` the directory listing of `{workspace}/subs`
when the final glob runs, and `now` the clock value read by
`datetime.now()` at completion. -/
structure PipelineEnv where
  mkdtemp : Except String String
  scrape : Except String Unit
  fillGaps : Except String Unit
  subsFiles : List String
  now : Nat
deriving Repr

/-- The terminal record written by the `except Exception as e` block of
`process_urls`: `state="failed"`, `message=f"Error: {e}"`, `progress=0.0`. -/
def failedRecord (j : Job) (e : String) : Job :=
  { j with state := "failed", message := "Error: " ++ e, progress := 0 }

/-- The three registry mutations of the `except` block of `process_urls`,
in program order: first `state`, then `message`, then `progress`. -/
def exceptTrace (j : Job) (e : String) : List Job :=
  [{ j with state := "failed" },
   { j with state := "failed", message := "Error: " ++ e },
   failedRecord j e]

/-- Result of one run of `process_urls`: the terminal registry record, the
trace of every registry snapshot in mutation order, and the tokenized lines
written to `reels.txt` (absent when workspace creation already raised). -/
structure ProcResult where
  final : Job
  trace : List Job
  reels : Option (List String)
deriving Repr

/-- The background task `process_urls(job_id, urls)` of `backend/main.py`,
acting on the registry record `j0` for its job.  Every assignment
`jobs[job_id][k] = v` appends a snapshot to the trace.  The whole body is a
total function: the Python `try/except` catches every exception, so every
path ends in a terminal registry update and nothing propagates. -/
def processUrls (j0 : Job) (env : PipelineEnv) (urls : List String) : ProcResult :=
  let j1 := { j0 with state := "running" }
  let j2 := { j1 with message := "Setting up workspace..." }
  let j3 := { j2 with progress := 0.1 }
  match env.mkdtemp with
  | Except.error e =>
      { final := failedRecord j3 e
        trace := [j1, j2, j3] ++ exceptTrace j3 e
        reels := none }
  | Except.ok ws =>
      let j4 := { j3 with workspace := some ws }
      let reels := reelsLines urls
      let j5 := { j4 with message := "Extracting existing captions..." }
      let j6 := { j5 with progress := 0.3 }
      match env.scrape with
      | Except.error e =>
          { final := failedRecord j6 e
            trace := [j1, j2, j3, j4, j5, j6] ++ exceptTrace j6 e
            reels := some reels }
      | Except.ok _ =>
          let j7 := { j6 with message := "Processing with Whisper..." }
          let j8 := { j7 with progress := 0.6 }
          match env.fillGaps with
          | Except.error e =>
              { final := failedRecord j8 e
                trace := [j1, j2, j3, j4, j5, j6, j7, j8] ++ exceptTrace j8 e
                reels := some reels }
          | Except.ok _ =>
              let j9 := { j8 with message := "Finalizing results..." }
              let j10 := { j9 with progress := 0.9 }
              let txt_files := env.subsFiles.filter (fun f => strEndsWith f ".txt")
              if txt_files.isEmpty then
                let f1 := { j10 with state := "failed" }
                let f2 := { f1 with message := "No transcripts were generated" }
                { final := f2
                  trace := [j1, j2, j3, j4, j5, j6, j7, j8, j9, j10, f1, f2]
                  reels := some reels }
              else
                let c1 := { j10 with state := "completed" }
                let c2 := { c1 with progress := 1 }
                let c3 := { c2 with
                  message := "Successfully processed " ++ toString txt_files.length
                    ++ " transcripts" }
                let c4 := { c3 with completed_at := some env.now }
                { final := c4
                  trace := [j1, j2, j3, j4, j5, j6, j7, j8, j9, j10, c1, c2, c3, c4]
                  reels := some reels }

/-- The text of the first exception raised during `process_urls`, if any:
workspace creation first, then stage 1, then stage 2 (a later stage does not
run once an earlier step raised). -/
def firstStageError (env : PipelineEnv) : Option String :=
  match env.mkdtemp with
  | Except.error e => some e
  | Except.ok _ =>
      match env.scrape with
      | Except.error e => some e
      | Except.ok _ =>
          match env.fillGaps with
          | Except.error e => some e
          | Except.ok _ => none

/-- Python `url.rstrip("/")`, computed on the underlying character list. -/
def rstripSlash (s : String) : String :=
  String.mk ((s.data.reverse.dropWhile (fun c => c = '/')).reverse)

/-- `url.rstrip("/").split("/")[-1]` from `fill_gaps.ensure_transcript`. -/
def shortOf (url : String) : String :=
  String.mk ((List.splitOnP (fun c => c = '/') (rstripSlash url).data).getLastD [])

/-- Outcome of the external calls made by one `ensure_transcript` run:
whether the `yt-dlp` audio download succeeds, and the Whisper transcription
result (`.error e` meaning the call raised). -/
structure AsrEnv where
  downloadOk : Bool
  transcribe : Except String String
deriving Repr

/-- `fill_gaps.ensure_transcript(url)` acting on the workspace-relative file
set `fs` (paths present on disk).  Mirrors the source: skip when
`subs/{short}.txt` exists; download `tmp/{short}.m4a` when missing and return
early when the download raises `CalledProcessError`; then
`try: transcribe and write the txt / except: swallow / finally: unlink the
audio file (missing_ok)`.  Returns the file set after the call. -/
def ensure_transcript (fs : List String) (env : AsrEnv) (url : String) : List String :=
  let short := shortOf url
  let txt_path := "subs/" ++ short ++ ".txt"
  let audio := "tmp/" ++ short ++ ".m4a"
  if fs.contains txt_path then
    fs
  else
    let fs1 :=
      if fs.contains audio then fs
      else if env.downloadOk then audio :: fs else fs
    if !fs1.contains audio then
      fs1
    else
      let fs2 :=
        match env.transcribe with
        | Except.ok _ => txt_path :: fs1
        | Except.error _ => fs1
      fs2.filter (fun p => p ≠ audio)

/-- Whether an `ensure_transcript` run reaches the Whisper transcription
step: the transcript is not already present, and the scratch audio file is
available (pre-existing or freshly downloaded). -/
def asrAttempted (fs : List String) (env : AsrEnv) (url : String) : Bool :=
  !fs.contains ("subs/" ++ shortOf url ++ ".txt")
    && (fs.contains ("tmp/" ++ shortOf url ++ ".m4a") || env.downloadOk)

/-- The pipeline environment of a run in which every external call succeeds:
workspace creation returns `ws`, both stages return normally, and the final
listing of `{workspace}/subs` is `files`. -/
def okEnv (ws : String) (files : List String) (tnow : Nat) : PipelineEnv :=
  { mkdtemp := Except.ok ws
    scrape := Except.ok ()
    fillGaps := Except.ok ()
    subsFiles := files
    now := tnow }

/-- One dispatched job end to end: the record created by `submit_urls` handed
to the background task `process_urls`, exactly as
`background_tasks.add_task(process_urls, job_id, submission.urls)` does. -/
def runJob (job_id : String) (urls : List String) (now0 : Nat) (env : PipelineEnv) :
    ProcResult :=
  processUrls (submittedJob job_id urls now0) env urls

/-- Helper: a filter by `strEndsWith · ".txt"` with positive length is not
the empty list. -/
theorem filter_txt_not_isEmpty (files : List String)
    (h : 0 < (files.filter (fun f => strEndsWith f ".txt")).length) :
    (files.filter (fun f => strEndsWith f ".txt")).isEmpty = false := by
  rcases hE : files.filter (fun f => strEndsWith f ".txt") with _ | ⟨a, l⟩
  · rw [hE] at h
    simp at h
  · rfl

/-- Helper: a filter by `strEndsWith · ".txt"` with length zero is empty. -/
theorem filter_txt_isEmpty (files : List String)
    (h : (files.filter (fun f => strEndsWith f ".txt")).length = 0) :
    (files.filter (fun f => strEndsWith f ".txt")).isEmpty = true := by
  simpa [List.isEmpty_iff, List.length_eq_zero] using h

/-- C2: every run of the background pipeline ends in a terminal registry
update (the trace is nonempty and its last snapshot is the final record), and
whenever any step raises (workspace creation, scrape stage, ASR-fallback
stage), the executor boundary converts it to `state="failed"`,
`progress=0.0`, and a message containing the error text; `processUrls` being
a total function, no exception propagates past job dispatch. -/
theorem executor_boundary_catches (job_id : String) (urls : List String)
    (now0 : Nat) (env : PipelineEnv) :
    ((runJob job_id urls now0 env).trace ≠ [] ∧
     (runJob job_id urls now0 env).trace.getLast? =
       some (runJob job_id urls now0 env).final) ∧
    (∀ e, firstStageError env = some e →
      (runJob job_id urls now0 env).final.state = "failed" ∧
      (runJob job_id urls now0 env).final.progress = 0 ∧
      (runJob job_id urls now0 env).final.message = "Error: " ++ e) := by
  rcases env with ⟨md, sc, fg, files, tnow⟩
  rcases md with e' | ws
  · exact ⟨⟨by simp [runJob, processUrls], by simp [runJob, processUrls, exceptTrace, failedRecord]⟩,
      fun e he => by
        simp [firstStageError] at he
        subst he
        simp [runJob, processUrls, failedRecord]⟩
  · rcases sc with e' | u
    · exact ⟨⟨by simp [runJob, processUrls], by simp [runJob, processUrls, exceptTrace, failedRecord]⟩,
        fun e he => by
          simp [firstStageError] at he
          subst he
          simp [runJob, processUrls, failedRecord]⟩
    · rcases fg with e' | u'
      · exact ⟨⟨by simp [runJob, processUrls], by simp [runJob, processUrls, exceptTrace, failedRecord]⟩,
          fun e he => by
            simp [firstStageError] at he
            subst he
            simp [runJob, processUrls, failedRecord]⟩
      · refine ⟨?_, fun e he => by simp [firstStageError] at he⟩
        cases hE : (files.filter (fun f => strEndsWith f ".txt")).isEmpty
        · exact ⟨by simp [runJob, processUrls, hE], by simp [runJob, processUrls, hE]⟩
        · exact ⟨by simp [runJob, processUrls, hE], by simp [runJob, processUrls, hE]⟩

theorem executor_boundary_catches_witness :
    (runJob "j" ["u"] 0 ⟨Except.error "disk full", Except.ok (), Except.ok (), [], 5⟩).final.state
      = "failed" ∧
    (runJob "j" ["u"] 0 ⟨Except.error "disk full", Except.ok (), Except.ok (), [], 5⟩).final.progress
      = 0 ∧
    (runJob "j" ["u"] 0 ⟨Except.error "disk full", Except.ok (), Except.ok (), [], 5⟩).final.message
      = "Error: disk full" :=
  (executor_boundary_catches "j" ["u"] 0
    ⟨Except.error "disk full", Except.ok (), Except.ok (), [], 5⟩).2 "disk full" rfl

/-- C3: on a fully successful run the registry snapshots are strictly ordered
as 0.1 at dispatch (state running), 0.3 after workspace creation and before the
scrape stage, 0.6 after the scrape stage and before the ASR-fallback stage,
0.9 after the ASR-fallback stage, then the completed terminal records — so
stage 2 updates never precede stage 1 completion; and on every run whatsoever
the progress values of the snapshots whose state is `pending` or `running`
form a non-decreasing sequence. -/
theorem checkpoint_order_and_monotonicity (job_id : String) (urls : List String)
    (now0 : Nat) (env : PipelineEnv) (ws : String) (files : List String) (tnow : Nat)
    (h : (files.filter (fun f => strEndsWith f ".txt")).isEmpty = false) :
    ((runJob job_id urls now0 (okEnv ws files tnow)).trace.map
        (fun j => (j.state, j.progress)) =
      [("running", 0), ("running", 0), ("running", 0.1), ("running", 0.1),
       ("running", 0.1), ("running", 0.3), ("running", 0.3), ("running", 0.6),
       ("running", 0.6), ("running", 0.9), ("completed", 0.9), ("completed", 1),
       ("completed", 1), ("completed", 1)]) ∧
    List.Chain' (· ≤ ·)
      (((submittedJob job_id urls now0 :: (runJob job_id urls now0 env).trace).filter
          (fun j => j.state = "pending" || j.state = "running")).map Job.progress) := by
  constructor
  · simp [runJob, okEnv, processUrls, h, submittedJob]
  · rcases env with ⟨md, sc, fg, efiles, etnow⟩
    rcases md with e' | ws'
    · simp [runJob, processUrls, submittedJob, exceptTrace, failedRecord, List.chain'_cons]
      norm_num
    · rcases sc with e' | u
      · simp [runJob, processUrls, submittedJob, exceptTrace, failedRecord, List.chain'_cons]
        norm_num
      · rcases fg with e' | u'
        · simp [runJob, processUrls, submittedJob, exceptTrace, failedRecord, List.chain'_cons]
          norm_num
        · cases hE : (efiles.filter (fun f => strEndsWith f ".txt")).isEmpty
          · simp [runJob, processUrls, submittedJob, hE, List.chain'_cons]
            norm_num
          · simp [runJob, processUrls, submittedJob, hE, List.chain'_cons]
            norm_num

theorem checkpoint_order_and_monotonicity_witness :
    (runJob "j" ["u"] 0 (okEnv "/w" ["a.txt"] 5)).trace.map
        (fun j => (j.state, j.progress)) =
      [("running", 0), ("running", 0), ("running", 0.1), ("running", 0.1),
       ("running", 0.1), ("running", 0.3), ("running", 0.3), ("running", 0.6),
       ("running", 0.6), ("running", 0.9), ("completed", 0.9), ("completed", 1),
       ("completed", 1), ("completed", 1)] :=
  (checkpoint_order_and_monotonicity "j" ["u"] 0 (okEnv "/w" ["a.txt"] 5)
    "/w" ["a.txt"] 5 (by decide)).1

/-- C4 counterexample: a job that fails because zero transcripts were
produced (both stages returned normally, `subs` listing empty) ends with
`state="failed"` but `progress=0.9`, not `0.0` — the zero-transcripts failure
path performs no progress reset. -/
theorem failed_progress_not_reset_cex :
    (runJob "j" ["u"] 0 (okEnv "/w" [] 5)).final.state = "failed" ∧
    (runJob "j" ["u"] 0 (okEnv "/w" [] 5)).final.progress = 0.9 ∧
    ((0.9 : Rat) ≠ 0) :=
  ⟨rfl, rfl, by norm_num⟩

/-- C4 amended: only the exception-caught failure path resets the job's
progress to 0.0; the zero-transcripts failure path sets `state="failed"` but
leaves progress at the last checkpoint value 0.9. -/
theorem failed_progress_amended (job_id : String) (urls : List String) (now0 : Nat)
    (env : PipelineEnv) (ws : String) (files : List String) (tnow : Nat) :
    (∀ e, firstStageError env = some e →
      (runJob job_id urls now0 env).final.progress = 0) ∧
    ((files.filter (fun f => strEndsWith f ".txt")).isEmpty = true →
      (runJob job_id urls now0 (okEnv ws files tnow)).final.state = "failed" ∧
      (runJob job_id urls now0 (okEnv ws files tnow)).final.progress = 0.9) := by
  constructor
  · rcases env with ⟨md, sc, fg, efiles, etnow⟩
    intro e he
    rcases md with e' | ws'
    · simp [firstStageError] at he
      subst he
      simp [runJob, processUrls, failedRecord]
    · rcases sc with e' | u
      · simp [firstStageError] at he
        subst he
        simp [runJob, processUrls, failedRecord]
      · rcases fg with e' | u'
        · simp [firstStageError] at he
          subst he
          simp [runJob, processUrls, failedRecord]
        · simp [firstStageError] at he
  · intro h
    exact ⟨by simp [runJob, okEnv, processUrls, h], by simp [runJob, okEnv, processUrls, h]⟩

theorem failed_progress_amended_witness :
    (runJob "j" ["u"] 0 ⟨Except.error "boom", Except.ok (), Except.ok (), [], 5⟩).final.progress
      = 0 ∧
    ((runJob "j" ["u"] 0 (okEnv "/w" [] 5)).final.state = "failed" ∧
     (runJob "j" ["u"] 0 (okEnv "/w" [] 5)).final.progress = 0.9) :=
  ⟨(failed_progress_amended "j" ["u"] 0
      ⟨Except.error "boom", Except.ok (), Except.ok (), [], 5⟩ "/w" [] 5).1 "boom" rfl,
   (failed_progress_amended "j" ["u"] 0
      ⟨Except.error "boom", Except.ok (), Except.ok (), [], 5⟩ "/w" [] 5).2 rfl⟩

/-- C10: `completed_at` is `None` at creation, and on every run the terminal
record has `completed_at` set exactly when its state is `completed`; moreover
no registry snapshot anywhere in the trace ever carries a set `completed_at`
with a state other than `completed`, so a job that terminates as failed (by
either failure path) retains `completed_at = None`. -/
theorem completed_at_iff_completed (job_id : String) (urls : List String)
    (now0 : Nat) (env : PipelineEnv) :
    (submittedJob job_id urls now0).completed_at = none ∧
    (submittedJob job_id urls now0).state = "pending" ∧
    ((runJob job_id urls now0 env).final.completed_at.isSome = true ↔
      (runJob job_id urls now0 env).final.state = "completed") ∧
    (∀ j ∈ (runJob job_id urls now0 env).trace,
      j.completed_at.isSome = true → j.state = "completed") := by
  refine ⟨rfl, rfl, ?_, ?_⟩ <;>
    · rcases env with ⟨md, sc, fg, efiles, etnow⟩
      rcases md with e' | ws'
      · simp [runJob, processUrls, submittedJob, exceptTrace, failedRecord]
      · rcases sc with e' | u
        · simp [runJob, processUrls, submittedJob, exceptTrace, failedRecord]
        · rcases fg with e' | u'
          · simp [runJob, processUrls, submittedJob, exceptTrace, failedRecord]
          · cases hE : (efiles.filter (fun f => strEndsWith f ".txt")).isEmpty
            · simp [runJob, processUrls, submittedJob, hE]
            · simp [runJob, processUrls, submittedJob, hE]

theorem completed_at_iff_completed_witness :
    (runJob "j" ["u"] 0 (okEnv "/w" ["a.txt"] 5)).final.state = "completed" :=
  (completed_at_iff_completed "j" ["u"] 0 (okEnv "/w" ["a.txt"] 5)).2.2.1.mp (by decide)

/-- C6: `GET /result/{job_id}` — an unknown id yields 404 "Job not found"; a
known job not in state `completed` yields 400 and leaves the filesystem
untouched (no partial archive is ever produced); a completed job whose
workspace field is unset (falsy) or whose directory is missing yields 404
"Results not found"; otherwise the archive is created and streamed with
download filename `transcripts_{job_id}.zip`. -/
theorem download_result_gates (jobs : Jobs) (pathExists : String → Bool)
    (job_id : String) :
    (jobs job_id = none →
      download_result jobs pathExists job_id =
        (pathExists, Except.error (404, "Job not found"))) ∧
    (∀ job, jobs job_id = some job → job.state ≠ "completed" →
      download_result jobs pathExists job_id =
        (pathExists, Except.error (400, "Job not completed yet"))) ∧
    (∀ job, jobs job_id = some job → job.state = "completed" →
      job.workspace = none →
      download_result jobs pathExists job_id =
        (pathExists, Except.error (404, "Results not found"))) ∧
    (∀ job ws, jobs job_id = some job → job.state = "completed" →
      job.workspace = some ws → (ws = "" ∨ pathExists ws = false) →
      download_result jobs pathExists job_id =
        (pathExists, Except.error (404, "Results not found"))) ∧
    (∀ job ws, jobs job_id = some job → job.state = "completed" →
      job.workspace = some ws → ws ≠ "" → pathExists ws = true →
      (download_result jobs pathExists job_id).2 =
        Except.ok (ws ++ "/transcripts.zip", "transcripts_" ++ job_id ++ ".zip")) := by
  refine ⟨?_, ?_, ?_, ?_, ?_⟩
  · intro h
    simp [download_result, h]
  · intro job hj hs
    simp [download_result, hj, hs]
  · intro job hj hs hw
    simp [download_result, hj, hs, hw]
  · intro job ws hj hs hw hcase
    rcases hcase with hws | hpe
    · simp [download_result, hj, hs, hw, hws]
    · by_cases hws : ws = ""
      · simp [download_result, hj, hs, hw, hws]
      · simp [download_result, hj, hs, hw, hws, hpe]
  · intro job ws hj hs hw hws hpe
    simp [download_result, hj, hs, hw, hws, hpe]

theorem download_result_gates_witness :
    (download_result (fun _ => none) (fun _ => true) "j" =
      ((fun _ => true), Except.error (404, "Job not found"))) ∧
    (download_result
        (fun k => if k = "j" then some (submittedJob "j" ["u"] 0) else none)
        (fun _ => true) "j" =
      ((fun _ => true), Except.error (400, "Job not completed yet"))) ∧
    ((download_result
        (fun k => if k = "j" then
          some { submittedJob "j" ["u"] 0 with
                   state := "completed", workspace := some "/w" }
          else none)
        (fun p => p == "/w") "j").2 =
      Except.ok ("/w/transcripts.zip", "transcripts_j.zip")) :=
  ⟨(download_result_gates (fun _ => none) (fun _ => true) "j").1 rfl,
   (download_result_gates (fun k => if k = "j" then some (submittedJob "j" ["u"] 0) else none)
      (fun _ => true) "j").2.1 (submittedJob "j" ["u"] 0) rfl (by decide),
   (download_result_gates
      (fun k => if k = "j" then
        some { submittedJob "j" ["u"] 0 with state := "completed", workspace := some "/w" }
        else none)
      (fun p => p == "/w") "j").2.2.2.2
     { submittedJob "j" ["u"] 0 with state := "completed", workspace := some "/w" }
     "/w" rfl rfl rfl (by decide) (by decide)⟩

/-- C7: `DELETE /jobs/{job_id}` — an unknown id yields 404 and changes
nothing; for a registered job the call succeeds, the registry entry is gone
(so a subsequent `GET /status/{job_id}` returns the 404 lookup error), the
workspace tree is removed when the field is set and the path exists, and the
call succeeds without touching the filesystem when the workspace field is
unset or its path is already missing. -/
theorem delete_job_removes_all (jobs : Jobs) (pathExists : String → Bool)
    (job_id : String) :
    (jobs job_id = none →
      delete_job jobs pathExists job_id =
        (jobs, pathExists, Except.error (404, "Job not found"))) ∧
    (∀ job, jobs job_id = some job →
      ((delete_job jobs pathExists job_id).2.2 = Except.ok "Job deleted successfully" ∧
       (delete_job jobs pathExists job_id).1 job_id = none ∧
       get_job_status (delete_job jobs pathExists job_id).1 job_id =
         Except.error (404, "Job not found") ∧
       (∀ ws, job.workspace = some ws → ws ≠ "" → pathExists ws = true →
         ∀ p, (p = ws ∨ strStartsWith p (ws ++ "/") = true) →
           (delete_job jobs pathExists job_id).2.1 p = false) ∧
       (job.workspace = none →
         (delete_job jobs pathExists job_id).2.1 = pathExists) ∧
       (∀ ws, job.workspace = some ws → pathExists ws = false →
         (delete_job jobs pathExists job_id).2.1 = pathExists))) := by
  constructor
  · intro h
    simp [delete_job, h]
  · intro job hj
    refine ⟨by simp [delete_job, hj], by simp [delete_job, hj],
      by simp [delete_job, get_job_status, hj], ?_, ?_, ?_⟩
    · intro ws hw hws hpe p hp
      simp [delete_job, hj, hw, hws, hpe, rmtree]
      rcases hp with hp | hp
      · simp [hp]
      · simp [hp]
    · intro hw
      simp [delete_job, hj, hw]
    · intro ws hw hpe
      simp [delete_job, hj, hw, hpe]

theorem delete_job_removes_all_witness :
    ((delete_job
        (fun k => if k = "j" then
          some { submittedJob "j" ["u"] 0 with workspace := some "/w" } else none)
        (fun p => p == "/w" || p == "/w/subs/a.txt") "j").2.2 =
      Except.ok "Job deleted successfully" ∧
     (delete_job
        (fun k => if k = "j" then
          some { submittedJob "j" ["u"] 0 with workspace := some "/w" } else none)
        (fun p => p == "/w" || p == "/w/subs/a.txt") "j").1 "j" = none ∧
     get_job_status
        (delete_job
          (fun k => if k = "j" then
            some { submittedJob "j" ["u"] 0 with workspace := some "/w" } else none)
          (fun p => p == "/w" || p == "/w/subs/a.txt") "j").1 "j" =
       Except.error (404, "Job not found") ∧
     (delete_job
        (fun k => if k = "j" then
          some { submittedJob "j" ["u"] 0 with workspace := some "/w" } else none)
        (fun p => p == "/w" || p == "/w/subs/a.txt") "j").2.1 "/w/subs/a.txt" = false) := by
  have h := (delete_job_removes_all
    (fun k => if k = "j" then
      some { submittedJob "j" ["u"] 0 with workspace := some "/w" } else none)
    (fun p => p == "/w" || p == "/w/subs/a.txt") "j").2
    { submittedJob "j" ["u"] 0 with workspace := some "/w" } rfl
  exact ⟨h.1, h.2.1, h.2.2.1,
    h.2.2.2.1 "/w" rfl (by decide) (by decide) "/w/subs/a.txt" (Or.inr (by decide))⟩

/-- C8 counterexample: submitting the single entry `"u1 u2"` stores
`urls = ["u1 u2"]` in the job record — the raw list as submitted — while the
whitespace-tokenized sequence is `["u1", "u2"]`; the record's `urls` field is
therefore not the tokenized sequence. -/
theorem stored_urls_not_tokenized_cex :
    ((submit_urls (fun _ => none) ["u1 u2"] "j" 0).1 "j").map Job.urls =
      some ["u1 u2"] ∧
    reelsLines ["u1 u2"] = ["u1", "u2"] ∧
    (["u1 u2"] : List String) ≠ ["u1", "u2"] := by
  refine ⟨?_, by decide, by decide⟩
  simp [submit_urls, submittedJob]

/-- C8 amended: the job record's `urls` field holds the input URL list exactly
as submitted and it is retained unchanged by every registry update of the
job's pipeline; the whitespace tokenization with empty entries discarded is
applied only to the URL-list file (`reels.txt`) written by the executor. -/
theorem stored_urls_amended (jobs : Jobs) (urls : List String) (job_id : String)
    (now0 : Nat) (env : PipelineEnv) (h : urls ≠ []) :
    ((submit_urls jobs urls job_id now0).1 job_id).map Job.urls = some urls ∧
    (∀ ws, env.mkdtemp = Except.ok ws →
      (runJob job_id urls now0 env).reels = some (reelsLines urls)) ∧
    (runJob job_id urls now0 env).final.urls = urls ∧
    (∀ j ∈ (runJob job_id urls now0 env).trace, j.urls = urls) := by
  refine ⟨by simp [submit_urls, submittedJob, h], ?_, ?_, ?_⟩
  · intro ws hw
    rcases env with ⟨md, sc, fg, efiles, etnow⟩
    cases hw
    rcases sc with e' | u
    · simp [runJob, processUrls]
    · rcases fg with e' | u'
      · simp [runJob, processUrls]
      · cases hE : (efiles.filter (fun f => strEndsWith f ".txt")).isEmpty
        · simp [runJob, processUrls, hE]
        · simp [runJob, processUrls, hE]
  · rcases env with ⟨md, sc, fg, efiles, etnow⟩
    rcases md with e' | ws'
    · simp [runJob, processUrls, submittedJob, failedRecord]
    · rcases sc with e' | u
      · simp [runJob, processUrls, submittedJob, failedRecord]
      · rcases fg with e' | u'
        · simp [runJob, processUrls, submittedJob, failedRecord]
        · cases hE : (efiles.filter (fun f => strEndsWith f ".txt")).isEmpty
          · simp [runJob, processUrls, submittedJob, hE]
          · simp [runJob, processUrls, submittedJob, hE]
  · rcases env with ⟨md, sc, fg, efiles, etnow⟩
    rcases md with e' | ws'
    · simp [runJob, processUrls, submittedJob, exceptTrace, failedRecord]
    · rcases sc with e' | u
      · simp [runJob, processUrls, submittedJob, exceptTrace, failedRecord]
      · rcases fg with e' | u'
        · simp [runJob, processUrls, submittedJob, exceptTrace, failedRecord]
        · cases hE : (efiles.filter (fun f => strEndsWith f ".txt")).isEmpty
          · simp [runJob, processUrls, submittedJob, hE]
          · simp [runJob, processUrls, submittedJob, hE]

theorem stored_urls_amended_witness :
    ((submit_urls (fun _ => none) ["u1 u2"] "j" 0).1 "j").map Job.urls =
      some ["u1 u2"] ∧
    (runJob "j" ["u1 u2"] 0 (okEnv "/w" ["a.txt"] 5)).reels =
      some (reelsLines ["u1 u2"]) ∧
    (runJob "j" ["u1 u2"] 0 (okEnv "/w" ["a.txt"] 5)).final.urls = ["u1 u2"] := by
  have h := stored_urls_amended (fun _ => none) ["u1 u2"] "j" 0
    (okEnv "/w" ["a.txt"] 5) (by decide)
  exact ⟨h.1, h.2.1 "/w" rfl, h.2.2.1⟩

/-- Helper: the transcript path and the scratch audio path derived from the
same URL segment always differ (their lengths differ by one). -/
theorem txt_path_ne_audio_path (s : String) :
    ("subs/" ++ s ++ ".txt") ≠ ("tmp/" ++ s ++ ".m4a") := by
  intro h
  have hlen := congrArg String.length h
  have h1 : "subs/".length = 5 := by decide
  have h2 : ".txt".length = 4 := by decide
  have h3 : "tmp/".length = 4 := by decide
  have h4 : ".m4a".length = 4 := by decide
  simp [String.length_append, h1, h2, h3, h4] at hlen

/-- C9: whenever `ensure_transcript` reaches the Whisper transcription step
for a URL with no pre-existing transcript, the scratch audio file
`tmp/{short}.m4a` is absent from the resulting file set on every exit path —
both when the transcription succeeds (and the transcript `subs/{short}.txt`
is written) and when the transcription call raises; the `finally` clause
unlinks it unconditionally. -/
theorem asr_scratch_audio_cleanup (fs : List String) (env : AsrEnv) (url : String)
    (hTxt : ("subs/" ++ shortOf url ++ ".txt") ∉ fs)
    (hAtt : asrAttempted fs env url = true) :
    ("tmp/" ++ shortOf url ++ ".m4a") ∉ ensure_transcript fs env url ∧
    (∀ t, env.transcribe = Except.ok t →
      ("subs/" ++ shortOf url ++ ".txt") ∈ ensure_transcript fs env url) := by
  have hne := txt_path_ne_audio_path (shortOf url)
  rcases env with ⟨dl, tr⟩
  simp [asrAttempted] at hAtt
  have hAud : ("tmp/" ++ shortOf url ++ ".m4a") ∈ fs ∨ dl = true := hAtt.2
  rcases hAud with hA | hA
  · constructor
    · rcases tr with e | t
      · simp [ensure_transcript, hTxt, hA, List.mem_filter]
      · simp [ensure_transcript, hTxt, hA, List.mem_filter]
    · intro t ht
      cases ht
      simp [ensure_transcript, hTxt, hA, List.mem_filter, hne]
  · cases hA
    by_cases hin : ("tmp/" ++ shortOf url ++ ".m4a") ∈ fs
    · constructor
      · rcases tr with e | t
        · simp [ensure_transcript, hTxt, hin, List.mem_filter]
        · simp [ensure_transcript, hTxt, hin, List.mem_filter]
      · intro t ht
        cases ht
        simp [ensure_transcript, hTxt, hin, List.mem_filter, hne]
    · constructor
      · rcases tr with e | t
        · simp [ensure_transcript, hTxt, hin, List.mem_filter]
        · simp [ensure_transcript, hTxt, hin, List.mem_filter]
      · intro t ht
        cases ht
        simp [ensure_transcript, hTxt, hin, List.mem_filter, hne]

theorem asr_scratch_audio_cleanup_witness :
    (("tmp/x.m4a" : String) ∉
      ensure_transcript ["tmp/x.m4a"] ⟨false, Except.error "whisper oom"⟩ "https://i/reel/x/" ∧
     ("tmp/x.m4a" : String) ∉
      ensure_transcript [] ⟨true, Except.ok "hello"⟩ "https://i/reel/x/") ∧
    ("subs/x.txt" : String) ∈
      ensure_transcript [] ⟨true, Except.ok "hello"⟩ "https://i/reel/x/" := by
  have h1 := asr_scratch_audio_cleanup ["tmp/x.m4a"] ⟨false, Except.error "whisper oom"⟩
    "https://i/reel/x/" (by decide) (by decide)
  have h2 := asr_scratch_audio_cleanup [] ⟨true, Except.ok "hello"⟩
    "https://i/reel/x/" (by decide) (by decide)
  exact ⟨⟨by simpa using h1.1, by simpa using h2.1⟩, by simpa using h2.2 "hello" rfl⟩

/-- C5: a submit request with an empty `urls` list is rejected synchronously
with HTTP 400 ("No URLs provided") and the registry is returned unchanged —
no job record is created by the rejected call. -/
theorem submit_empty_rejected (jobs : Jobs) (job_id : String) (now0 : Nat) :
    submit_urls jobs [] job_id now0 = (jobs, Except.error (400, "No URLs provided")) := rfl

/-- C1: when both stages run without raising, the terminal resolution counts
the `.txt` files in `{workspace}/subs`: zero of them means `state="failed"`
with message "No transcripts were generated" even though no stage reported a
hard error; one or more means `state="completed"`, `progress=1.0`,
`completed_at=now`, and a message summarizing the count. -/
theorem terminal_resolution_counts_txt (job_id : String) (urls : List String)
    (now0 : Nat) (ws : String) (files : List String) (tnow : Nat) :
    ((files.filter (fun f => strEndsWith f ".txt")).length = 0 →
      (runJob job_id urls now0 (okEnv ws files tnow)).final.state = "failed" ∧
      (runJob job_id urls now0 (okEnv ws files tnow)).final.message =
        "No transcripts were generated") ∧
    (0 < (files.filter (fun f => strEndsWith f ".txt")).length →
      (runJob job_id urls now0 (okEnv ws files tnow)).final.state = "completed" ∧
      (runJob job_id urls now0 (okEnv ws files tnow)).final.progress = 1 ∧
      (runJob job_id urls now0 (okEnv ws files tnow)).final.completed_at = some tnow ∧
      (runJob job_id urls now0 (okEnv ws files tnow)).final.message =
        "Successfully processed "
          ++ toString (files.filter (fun f => strEndsWith f ".txt")).length
          ++ " transcripts") := by
  constructor
  · intro h
    have h' := filter_txt_isEmpty files h
    simp [runJob, okEnv, processUrls, h']
  · intro h
    have h' := filter_txt_not_isEmpty files h
    simp [runJob, okEnv, processUrls, h']

theorem terminal_resolution_counts_txt_witness :
    ((runJob "j" ["u"] 0 (okEnv "/w" ["x.srt"] 5)).final.state = "failed" ∧
     (runJob "j" ["u"] 0 (okEnv "/w" ["x.srt"] 5)).final.message =
       "No transcripts were generated") ∧
    ((runJob "j" ["u"] 0 (okEnv "/w" ["a.txt", "b.txt"] 5)).final.state = "completed" ∧
     (runJob "j" ["u"] 0 (okEnv "/w" ["a.txt", "b.txt"] 5)).final.progress = 1 ∧
     (runJob "j" ["u"] 0 (okEnv "/w" ["a.txt", "b.txt"] 5)).final.completed_at = some 5 ∧
     (runJob "j" ["u"] 0 (okEnv "/w" ["a.txt", "b.txt"] 5)).final.message =
       "Successfully processed 2 transcripts") :=
  ⟨(terminal_resolution_counts_txt "j" ["u"] 0 "/w" ["x.srt"] 5).1 (by decide),
   (terminal_resolution_counts_txt "j" ["u"] 0 "/w" ["a.txt", "b.txt"] 5).2 (by decide)⟩
